import Mathlib

/-!
Verification of the bmkg-alert core pipeline: a shallow embedding of the
Matcher (`app/engine/matcher.py`), State Manager (`app/engine/state.py`),
Notification Dispatcher (`app/notifications/dispatcher.py`) and the Alert
Engine poll cycle (`app/engine/worker.py`), together with proofs of the
specified invariants.

Strings are modelled as Lean `String`; Python's `str.lower` is modelled by
`pyLower` (per-character ASCII lowercasing), Python's substring test
`needle in haystack` by an explicit character-list scan (`containsSeq`),
and SQLite's binary TEXT comparison by lexicographic order on character
lists (`strLtB`).  Database tables are modelled as lists of rows in
insertion order.
-/

namespace BmkgAlert

/-- `WarningArea` from `app/models.py` — an area affected by a warning.
The polygon coordinate list is opaque to the whole core (it is only
serialized verbatim into the alert row), so it is carried as an opaque
string here. -/
structure WarningArea where
  name : String
  polygon : String := ""
deriving DecidableEq

/-- `WarningInfo` from `app/models.py` — a single warning from the nowcast
detail endpoint. -/
structure WarningInfo where
  identifier : String := ""
  event : String := ""
  severity : String := ""
  urgency : String := ""
  certainty : String := ""
  effective : String := ""
  expires : String := ""
  headline : String := ""
  description : String := ""
  sender : String := ""
  infographic_url : String := ""
  areas : List WarningArea := []
  is_expired : Bool := false
deriving DecidableEq

/-- `Location` from `app/models.py` — a monitored location row.  The
optional latitude/longitude floats play no role in the engine and are
omitted. -/
structure Location where
  id : Int := 0
  label : String := ""
  province_code : String
  province_name : String
  district_code : String
  district_name : String
  subdistrict_code : String
  subdistrict_name : String
  enabled : Bool := true
deriving DecidableEq

/-- `MatchResult` from `app/models.py` — the result of matching a warning
against a location. -/
structure MatchResult where
  location : Location
  match_type : String
  matched_text : String
deriving DecidableEq

/-- An `alerts` table row (`Alert` in `app/models.py`). -/
structure Alert where
  id : Int := 0
  bmkg_alert_code : String
  event : String := ""
  severity : String := ""
  urgency : String := ""
  certainty : String := ""
  headline : String := ""
  description : String := ""
  effective : String := ""
  expires : String := ""
  infographic_url : String := ""
  polygon_data : String := ""
  matched_location_id : Option Int := none
  match_type : String := ""
  matched_text : String := ""
  status : String := "active"
  expired_notified : Bool := false
  created_at : String := ""
deriving DecidableEq

/-- An `alert_deliveries` table row (`AlertDelivery` in `app/models.py`). -/
structure Delivery where
  alert_id : Int
  channel_id : Int
  status : String
  error_message : String := ""
deriving DecidableEq

/-- The channel dict handed to the dispatcher by
`StateManager.get_enabled_channels` — only `id` and `channel_type` are
consulted by `NotificationDispatcher.send`; `config` is passed opaquely to
the sender. -/
structure Channel where
  id : Int
  channel_type : String
deriving DecidableEq

/-- A `trial_subscriptions` table row as used by `StateManager`.
`expired_notified` is an SQLite integer flag (0 or 1). -/
structure Trial where
  id : Int
  telegram_chat_id : String := ""
  subdistrict_name : String := ""
  district_name : String := ""
  severity_threshold : String := "all"
  expires_at : String := ""
  expired_notified : Nat := 0
deriving DecidableEq

/-! ## Python string primitives -/

/-- Python `str.lower()` restricted to ASCII case folding, applied
character by character. -/
def pyLower (s : String) : String :=
  String.mk (s.data.map Char.toLower)

/-- Lexicographic strict order on character lists — SQLite's binary
collation on TEXT columns (codepoint order agrees with UTF-8 byte
order). -/
def strLtB : List Char → List Char → Bool
  | [], [] => false
  | [], _ :: _ => true
  | _ :: _, [] => false
  | a :: as, b :: bs => a.toNat < b.toNat || (a == b && strLtB as bs)

/-- Lexicographic order-or-equal on character lists (SQLite `<=`). -/
def strLeB (a b : List Char) : Bool :=
  strLtB a b || a == b

/-- `leadsWith n h` holds when the character list `h` starts with `n`. -/
def leadsWith : List Char → List Char → Bool
  | [], _ => true
  | _ :: _, [] => false
  | a :: as, b :: bs => a == b && leadsWith as bs

/-- `containsSeq n h` — the character list `n` occurs contiguously inside
`h` (Python's `n in h` on strings). -/
def containsSeq (n : List Char) : List Char → Bool
  | [] => leadsWith n []
  | b :: bs => leadsWith n (b :: bs) || containsSeq n bs

/-- Python's substring operator `needle in haystack`. -/
def strContains (needle haystack : String) : Bool :=
  containsSeq needle.data haystack.data

/-- `needle` is a contiguous substring of `haystack`. -/
def IsSubstring (needle haystack : String) : Prop :=
  ∃ l r : List Char, haystack.data = l ++ needle.data ++ r

/-! ## Matcher (`app/engine/matcher.py`) -/

/-- `_word_boundary_match` from `app/engine/matcher.py` — despite its name
it is a plain substring check. -/
def word_boundary_match (needle haystack : String) : Bool :=
  strContains needle haystack

/-- The per-location loop body of `match_locations`: `dl` is the lowered
description, `ans` the lowered area names (Python builds a set; only
membership via `any` is used, so a list is equivalent). -/
def match_locations_go (dl : String) (ans : List String) : List Location → List MatchResult
  | [] => []
  | location :: rest =>
    if location.enabled = false then
      match_locations_go dl ans rest
    else if pyLower location.subdistrict_name ≠ "" ∧
        word_boundary_match (pyLower location.subdistrict_name) dl = true then
      { location := location, match_type := "kecamatan",
        matched_text := location.subdistrict_name } :: match_locations_go dl ans rest
    else if pyLower location.district_name ≠ "" ∧
        ans.any (fun an => strContains (pyLower location.district_name) an) = true then
      { location := location, match_type := "kabupaten",
        matched_text := location.district_name } :: match_locations_go dl ans rest
    else
      match_locations_go dl ans rest

/-- `match_locations` from `app/engine/matcher.py`. -/
def match_locations (warning : WarningInfo) (locations : List Location) : List MatchResult :=
  match_locations_go (pyLower warning.description)
    (warning.areas.map (fun a => pyLower a.name)) locations

/-! ## State Manager (`app/engine/state.py`)

The `alerts` table is a list of `Alert` rows in insertion order; SQLite's
`<` / `<=` on TEXT columns (binary collation) is Lean's lexicographic
`String` order. -/

/-- `StateManager.is_duplicate` — `SELECT id FROM alerts WHERE
bmkg_alert_code = ? AND matched_location_id = ?`: true iff `fetch_one`
finds a row; note the query has no status filter. -/
def is_duplicate (alert_code : String) (location_id : Int) (db : List Alert) : Bool :=
  (db.find? (fun a =>
    decide (a.bmkg_alert_code = alert_code ∧ a.matched_location_id = some location_id))).isSome

/-- SQLite rowid assignment for the insert: one more than the largest id in
the table. -/
def nextAlertId (db : List Alert) : Int :=
  (db.foldl (fun m a => max m a.id) 0) + 1

/-- The `polygon_data` blob built by `store_alert`
(`json.dumps([{"name": ..., "polygon": ...} for area in warning.areas])`).
The blob is opaque to the whole core, so the JSON syntax is abstracted to a
plain concatenation of the serialized fields. -/
def polygonBlob (areas : List WarningArea) : String :=
  String.intercalate "," (areas.map (fun a => a.name ++ ":" ++ a.polygon))

/-- The row inserted by `StateManager.store_alert`: a copy of the warning
fields plus the match columns, with `status='active'`.  `created_at` is
filled by a column default, not by the INSERT. -/
def mkAlertRow (warning : WarningInfo) (m : MatchResult) (alert_code : String)
    (id : Int) : Alert :=
  { id := id
    bmkg_alert_code := alert_code
    event := warning.event
    severity := warning.severity
    urgency := warning.urgency
    certainty := warning.certainty
    headline := warning.headline
    description := warning.description
    effective := warning.effective
    expires := warning.expires
    infographic_url := warning.infographic_url
    polygon_data := polygonBlob warning.areas
    matched_location_id := some m.location.id
    match_type := m.match_type
    matched_text := m.matched_text
    status := "active"
    expired_notified := false
    created_at := "" }

/-- `StateManager.store_alert` — the INSERT into `alerts`.
Modelled from the spec: the repository's `schema.sql` is not under `src/`,
so the unique index behind the dedup key is taken from the spec ("Alert
dedup key: `(bmkg_alert_code, matched_location_id)` — unique across all
statuses" and "Fails with `DuplicateKey` if the dedup pair already
exists"): when a row with the same pair is present the INSERT raises
`DuplicateKey` and the table is unchanged; otherwise the new row is
appended and its rowid returned. -/
def store_alert (warning : WarningInfo) (m : MatchResult) (alert_code : String)
    (db : List Alert) : Except String Int × List Alert :=
  if db.any (fun a =>
      decide (a.bmkg_alert_code = alert_code ∧ a.matched_location_id = some m.location.id)) then
    (Except.error "DuplicateKey", db)
  else
    let id := nextAlertId db
    (Except.ok id, db ++ [mkAlertRow warning m alert_code id])

/-- The WHERE clause of the `mark_expired_alerts` SELECT:
`status = 'active' AND expires != '' AND expires < now`. -/
def alertExpiredPred (now : String) (a : Alert) : Bool :=
  decide (a.status = "active") && decide (a.expires ≠ "") && strLtB a.expires.data now.data

/-- `UPDATE alerts SET status = ? WHERE id = ?`. -/
def updateAlertStatusById (db : List Alert) (i : Int) (st : String) : List Alert :=
  db.map (fun a => if a.id = i then { a with status := st } else a)

/-- `StateManager.mark_expired_alerts` — select the active rows whose
non-empty `expires` is before `now`, update each selected row's status to
`expired` (by id, one UPDATE per row), and return the pre-transition
snapshots together with the new table. -/
def mark_expired_alerts (now : String) (db : List Alert) : List Alert × List Alert :=
  let rows := db.filter (alertExpiredPred now)
  (rows, rows.foldl (fun d a => updateAlertStatusById d a.id "expired") db)

/-- `StateManager.log_delivery` — append one row to `alert_deliveries`. -/
def log_delivery (log : List Delivery) (alert_id channel_id : Int)
    (status error_message : String) : List Delivery :=
  log ++ [{ alert_id := alert_id, channel_id := channel_id,
            status := status, error_message := error_message }]

/-- `StateManager.get_config_value` — `SELECT value FROM config WHERE
key = ?`, falling back to the default when no row exists. -/
def get_config_value (cfg : List (String × String)) (key df : String) : String :=
  match cfg.find? (fun kv => kv.1 == key) with
  | some kv => kv.2
  | none => df

/-- The WHERE clause of the `expire_trials` SELECT:
`expires_at <= CURRENT_TIMESTAMP AND expired_notified = 0`. -/
def trialExpiredPred (now : String) (t : Trial) : Bool :=
  strLeB t.expires_at.data now.data && decide (t.expired_notified = 0)

/-- `UPDATE trial_subscriptions SET expired_notified = 1 WHERE id IN (...)`. -/
def setTrialNotifiedByIds (db : List Trial) (ids : List Int) : List Trial :=
  db.map (fun t => if t.id ∈ ids then { t with expired_notified := 1 } else t)

/-- `StateManager.expire_trials` — select the not-yet-notified rows whose
`expires_at` has passed, set their `expired_notified` flag in one UPDATE
(skipped when nothing was selected), and return the pre-transition
snapshots together with the new table. -/
def expire_trials (now : String) (db : List Trial) : List Trial × List Trial :=
  let expired := db.filter (trialExpiredPred now)
  if expired.isEmpty then (expired, db)
  else (expired, setTrialNotifiedByIds db (expired.map (fun t => t.id)))

/-! ## Notification Dispatcher (`app/notifications/dispatcher.py`) -/

/-- Python `str.strip()` (common whitespace only). -/
def pyStrip (cs : List Char) : List Char :=
  ((cs.dropWhile Char.isWhitespace).reverse.dropWhile Char.isWhitespace).reverse

/-- Numeric value of an ASCII digit list (most significant first). -/
def digitsVal (cs : List Char) : Nat :=
  cs.foldl (fun acc c => acc * 10 + (c.toNat - ('0').toNat)) 0

/-- Parse a non-empty all-ASCII-digit list. -/
def parseDigits (cs : List Char) : Option Nat :=
  if cs ≠ [] ∧ cs.all (fun c => '0' ≤ c ∧ c ≤ '9') then some (digitsVal cs) else none

/-- Python `int(s)` as used on config hour fields: optional surrounding
whitespace, optional sign, one or more ASCII digits.  (Underscore grouping
and non-ASCII digits, which CPython also accepts, are not modelled.)
`none` is Python's `ValueError`. -/
def parsePyInt (s : String) : Option Int :=
  match pyStrip s.data with
  | '-' :: rest => (parseDigits rest).map (fun n => -(n : Int))
  | '+' :: rest => (parseDigits rest).map (fun n => (n : Int))
  | cs => (parseDigits cs).map (fun n => (n : Int))

/-- Python `s.split(":")[0]` — the characters before the first `':'` (the
whole string when there is none); `split` always yields at least one
element, so no IndexError is possible. -/
def splitHead (s : String) (sep : Char) : String :=
  String.mk (s.data.takeWhile (fun c => c ≠ sep))

/-- `NotificationDispatcher._is_quiet_hours` — reads the four quiet-hours
config values, converts the UTC hour to Jakarta local time (UTC+7), parses
the hour fields of the window bounds, and tests the window (wrapping when
`start_hour > end_hour`).  A `ValueError` from either `int(...)` is caught
and yields `false`. -/
def is_quiet_hours (cfg : List (String × String)) (severity : String) (utcHour : Nat) : Bool :=
  let enabled := get_config_value cfg "quiet_hours_enabled" "false"
  if enabled ≠ "true" then false
  else
    let override_severe := get_config_value cfg "quiet_hours_override_severe" "true"
    if override_severe = "true" ∧ (severity = "Severe" ∨ severity = "Extreme") then false
    else
      let start_str := get_config_value cfg "quiet_hours_start" "22:00"
      let end_str := get_config_value cfg "quiet_hours_end" "06:00"
      let local_hour : Int := ((utcHour + 7) % 24 : Nat)
      match parsePyInt (splitHead start_str ':'), parsePyInt (splitHead end_str ':') with
      | some start_hour, some end_hour =>
        if start_hour > end_hour then
          decide (local_hour ≥ start_hour ∨ local_hour < end_hour)
        else
          decide (start_hour ≤ local_hour ∧ local_hour < end_hour)
      | _, _ => false

/-- Outcome of one `sender.send(...)` network attempt: a boolean return or
a raised exception with its message. -/
inductive SenderOutcome where
  | ok : Bool → SenderOutcome
  | exc : String → SenderOutcome
deriving DecidableEq

/-- Membership in the dispatcher's static `sender_map`. -/
def senderKnown (t : String) : Bool :=
  t == "telegram" || t == "discord" || t == "slack" || t == "email" || t == "webhook"

/-- The `try`/`except` block of `NotificationDispatcher.send`: route to the
sender when the channel type is known (the sender's network call either
returns a boolean or raises, per `behavior`), otherwise record the
unsupported-type error.  Returns `(success, error_msg)`. -/
def senderAttempt (behavior : String → SenderOutcome) (channel_type : String) : Bool × String :=
  if senderKnown channel_type then
    match behavior channel_type with
    | SenderOutcome.ok b => (b, "")
    | SenderOutcome.exc msg => (false, msg)
  else
    (false, "Unsupported channel type: " ++ channel_type)

/-- `NotificationDispatcher.send` — quiet-hours filter, sender routing, and
exactly one `log_delivery` on every path.  `behavior` supplies the outcome
of the sender's network call for this dispatch; the delivery log is passed
and returned explicitly.  Returns `(success, new_log)`. -/
def dispatcher_send (cfg : List (String × String)) (utcHour : Nat)
    (behavior : String → SenderOutcome) (alert_id : Int) (warning : WarningInfo)
    (channel : Channel) (log : List Delivery) : Bool × List Delivery :=
  if is_quiet_hours cfg warning.severity utcHour then
    (false, log_delivery log alert_id channel.id "skipped_quiet_hours" "")
  else
    let res := senderAttempt behavior channel.channel_type
    (res.1, log_delivery log alert_id channel.id (if res.1 then "sent" else "failed") res.2)

/-! ## Alert Engine poll cycle (`app/engine/worker.py`)

Only the `alerts`-table effect of `_run_poll_cycle` is modelled here: the
dedup check and insert per match, and the expiry sweep.  Notification
dispatch and the trial sub-pipeline never touch the `alerts` table. -/

/-- The per-match body of `_run_poll_cycle`: skip when `is_duplicate`,
otherwise `store_alert`. -/
def processMatch (alert_code : String) (warning : WarningInfo)
    (db : List Alert) (m : MatchResult) : List Alert :=
  if is_duplicate alert_code m.location.id db then db
  else (store_alert warning m alert_code db).2

/-- The per-warning body: skip expired warnings, else run the matcher and
process each match in order. -/
def processWarning (alert_code : String) (locations : List Location)
    (db : List Alert) (warning : WarningInfo) : List Alert :=
  if warning.is_expired then db
  else (match_locations warning locations).foldl (processMatch alert_code warning) db

/-- The per-nowcast-item body: an item is the alert code paired with the
warnings of its (successfully fetched) detail. -/
def processItem (locations : List Location) (db : List Alert)
    (item : String × List WarningInfo) : List Alert :=
  item.2.foldl (processWarning item.1 locations) db

/-- The `alerts`-table effect of one `_run_poll_cycle`: early return when
the nowcast list or the location list is empty, otherwise process every
item and finish with the expiry sweep. -/
def runPollCycle (items : List (String × List WarningInfo))
    (locations : List Location) (now : String) (db : List Alert) : List Alert :=
  if items.isEmpty then db
  else if locations.isEmpty then db
  else (mark_expired_alerts now (items.foldl (processItem locations) db)).2

/-- Number of `alerts` rows carrying a given
`(bmkg_alert_code, matched_location_id)` pair. -/
def pairCount (c : String) (l : Int) (db : List Alert) : Nat :=
  (db.filter (fun a =>
    decide (a.bmkg_alert_code = c ∧ a.matched_location_id = some l))).length

/-- The dedup invariant: at most one `alerts` row per
`(bmkg_alert_code, matched_location_id)` pair. -/
def dedupInvariant (db : List Alert) : Prop :=
  ∀ c : String, ∀ l : Int, pairCount c l db ≤ 1

/-! ## Concrete fixtures (from `tests/test_matcher.py` and §8 of the spec) -/

/-- The monitored location used by the repository's matcher tests. -/
def sampleLocation : Location :=
  { id := 1, label := "Lokasi 1", province_code := "33", province_name := "Jawa Tengah",
    district_code := "3305", district_name := "Kebumen",
    subdistrict_code := "330501", subdistrict_name := "Alian", enabled := true }

/-- The warning used by the repository's matcher tests (S1 of the spec). -/
def sampleWarning : WarningInfo :=
  { event := "Hujan Lebat dan Petir", severity := "Moderate",
    description := "Hujan di Alian, Bonorowo, Bruno, Butuh.",
    areas := [{ name := "Jawa Tengah" }] }

/-- The match that S1 produces for `sampleWarning` and `sampleLocation`. -/
def sampleMatch : MatchResult :=
  { location := sampleLocation, match_type := "kecamatan", matched_text := "Alian" }

/-- A stored alert row for the S2/S4 scenarios. -/
def sampleAlert : Alert :=
  { id := 1, bmkg_alert_code := "CBT1", matched_location_id := some 1,
    status := "active", expires := "2000-01-01T00:00:00+00:00" }

/-- An expired, not-yet-notified trial row. -/
def sampleTrial : Trial :=
  { id := 3, expires_at := "2020-01-01 00:00:00", expired_notified := 0 }

/-- A telegram channel row. -/
def sampleChannel : Channel :=
  { id := 4, channel_type := "telegram" }

/-- A fully-populated quiet-hours configuration (S6 of the spec). -/
def sampleQuietCfg : List (String × String) :=
  [("quiet_hours_enabled", "true"), ("quiet_hours_override_severe", "true"),
   ("quiet_hours_start", "22:00"), ("quiet_hours_end", "06:00")]

/-- A quiet-hours configuration whose start hour does not parse. -/
def sampleBadCfg : List (String × String) :=
  [("quiet_hours_enabled", "true"), ("quiet_hours_start", "oops")]

/-! ## Lemmas about the string primitives -/

theorem leadsWith_iff (n : List Char) : ∀ h : List Char,
    leadsWith n h = true ↔ ∃ r, h = n ++ r := by
  induction n with
  | nil =>
    intro h
    simp [leadsWith]
  | cons a as ih =>
    intro h
    cases h with
    | nil => simp [leadsWith]
    | cons b bs =>
      simp only [leadsWith, Bool.and_eq_true, beq_iff_eq, ih bs, List.cons_append,
        List.cons.injEq]
      constructor
      · rintro ⟨hab, r, hr⟩
        exact ⟨r, hab.symm, hr⟩
      · rintro ⟨r, hba, hr⟩
        exact ⟨hba.symm, r, hr⟩

theorem containsSeq_iff (n : List Char) : ∀ h : List Char,
    containsSeq n h = true ↔ ∃ l r, h = l ++ n ++ r := by
  intro h
  induction h with
  | nil =>
    simp only [containsSeq, leadsWith_iff]
    constructor
    · rintro ⟨r, hr⟩
      exact ⟨[], r, by simpa using hr⟩
    · rintro ⟨l, r, hr⟩
      have h1 := List.append_eq_nil.mp hr.symm
      have h2 := List.append_eq_nil.mp h1.1
      exact ⟨[], by simp [h2.2]⟩
  | cons b bs ih =>
    simp only [containsSeq, Bool.or_eq_true, leadsWith_iff, ih]
    constructor
    · rintro (⟨r, hr⟩ | ⟨l, r, hr⟩)
      · exact ⟨[], r, by simpa using hr⟩
      · exact ⟨b :: l, r, by simp [hr]⟩
    · rintro ⟨l, r, hr⟩
      cases l with
      | nil =>
        exact Or.inl ⟨r, by simpa using hr⟩
      | cons x xs =>
        simp only [List.cons_append, List.cons.injEq] at hr
        exact Or.inr ⟨xs, r, hr.2⟩

theorem strContains_iff (needle haystack : String) :
    strContains needle haystack = true ↔ IsSubstring needle haystack := by
  simp [strContains, IsSubstring, containsSeq_iff]

theorem pyLower_eq_empty {s : String} (h : pyLower s = "") : s = "" := by
  cases s with
  | mk data =>
    cases data with
    | nil => rfl
    | cons c cs => simp [pyLower, String.ext_iff] at h

/-! ## C8 — `is_duplicate` -/

/-- C8: `is_duplicate(alert_code, location_id)` returns true iff at least
one `alerts` row with that `(bmkg_alert_code, matched_location_id)` pair
exists, regardless of the row's status: the truth value is unchanged by
rewriting every row's status. -/
theorem is_duplicate_iff (code : String) (loc : Int) (db : List Alert) :
    (is_duplicate code loc db = true ↔
      ∃ a ∈ db, a.bmkg_alert_code = code ∧ a.matched_location_id = some loc)
    ∧ ∀ st : String,
        is_duplicate code loc (db.map (fun a => { a with status := st }))
          = is_duplicate code loc db := by
  constructor
  · simp [is_duplicate, List.find?_isSome]
  · intro st
    simp only [is_duplicate]
    induction db with
    | nil => rfl
    | cons a rest ih =>
      by_cases hp : a.bmkg_alert_code = code ∧ a.matched_location_id = some loc
      · simp [List.find?, hp]
      · simpa [List.find?, hp] using ih

/-! ## C5 — one delivery row per dispatcher call -/

/-- C5: every call to `NotificationDispatcher.send` appends exactly one
row to the deliveries table for the given `(alert_id, channel_id)`,
whichever path is taken (quiet-hours skip, unknown channel type, sender
success, sender failure, sender exception). -/
theorem dispatcher_send_logs_exactly_once (cfg : List (String × String)) (utcHour : Nat)
    (behavior : String → SenderOutcome) (alert_id : Int) (warning : WarningInfo)
    (channel : Channel) (log : List Delivery) :
    ∃ d : Delivery,
      (dispatcher_send cfg utcHour behavior alert_id warning channel log).2 = log ++ [d]
      ∧ d.alert_id = alert_id ∧ d.channel_id = channel.id := by
  unfold dispatcher_send log_delivery
  split
  · exact ⟨_, rfl, rfl, rfl⟩
  · exact ⟨_, rfl, rfl, rfl⟩

/-! ## Matcher characterization -/

/-- Every element of the matcher loop's output comes from an enabled input
location and fired exactly one of the two rules; a kabupaten result records
that the kecamatan rule did not fire for its location. -/
theorem mem_match_locations_go (dl : String) (ans : List String) :
    ∀ locs : List Location, ∀ m : MatchResult, m ∈ match_locations_go dl ans locs →
      m.location ∈ locs ∧ m.location.enabled = true ∧
      ((m.match_type = "kecamatan" ∧ m.matched_text = m.location.subdistrict_name ∧
          pyLower m.location.subdistrict_name ≠ "" ∧
          word_boundary_match (pyLower m.location.subdistrict_name) dl = true)
        ∨ (m.match_type = "kabupaten" ∧ m.matched_text = m.location.district_name ∧
          pyLower m.location.district_name ≠ "" ∧
          ans.any (fun an => strContains (pyLower m.location.district_name) an) = true ∧
          ¬(pyLower m.location.subdistrict_name ≠ "" ∧
            word_boundary_match (pyLower m.location.subdistrict_name) dl = true))) := by
  intro locs
  induction locs with
  | nil => intro m hm; simp [match_locations_go] at hm
  | cons location rest ih =>
    intro m hm
    rw [match_locations_go] at hm
    split_ifs at hm with hen hkec hkab
    · rcases ih m hm with ⟨h1, h2⟩
      exact ⟨List.mem_cons_of_mem _ h1, h2⟩
    · rcases List.mem_cons.mp hm with hm | hm
      · subst hm
        exact ⟨List.mem_cons_self _ _, by simpa using hen,
          Or.inl ⟨rfl, rfl, hkec.1, hkec.2⟩⟩
      · rcases ih m hm with ⟨h1, h2⟩
        exact ⟨List.mem_cons_of_mem _ h1, h2⟩
    · rcases List.mem_cons.mp hm with hm | hm
      · subst hm
        exact ⟨List.mem_cons_self _ _, by simpa using hen,
          Or.inr ⟨rfl, rfl, hkab.1, hkab.2, hkec⟩⟩
      · rcases ih m hm with ⟨h1, h2⟩
        exact ⟨List.mem_cons_of_mem _ h1, h2⟩
    · rcases ih m hm with ⟨h1, h2⟩
      exact ⟨List.mem_cons_of_mem _ h1, h2⟩

/-! ## C3 — every match fired exactly one rule -/

/-- C3: every `MatchResult` of `match_locations` is either a kecamatan
match whose lowered subdistrict name occurs in the lowered description, or
a kabupaten match whose lowered district name occurs in some lowered area
name; and any two results for the same location carry the same match type
(the kecamatan rule strictly precedes the kabupaten rule), so no location
yields both kinds in one call. -/
theorem match_locations_sound (w : WarningInfo) (L : List Location) (m : MatchResult)
    (hm : m ∈ match_locations w L) :
    ((m.match_type = "kecamatan" ∧
        IsSubstring (pyLower m.location.subdistrict_name) (pyLower w.description))
      ∨ (m.match_type = "kabupaten" ∧
        ∃ a ∈ w.areas, IsSubstring (pyLower m.location.district_name) (pyLower a.name)))
    ∧ ∀ m2 ∈ match_locations w L, m2.location = m.location → m2.match_type = m.match_type := by
  rw [match_locations] at hm
  have char := mem_match_locations_go (pyLower w.description)
    (w.areas.map (fun a => pyLower a.name)) L m hm
  constructor
  · rcases char.2.2 with ⟨ht, _, _, hsub⟩ | ⟨ht, _, _, hsub, _⟩
    · exact Or.inl ⟨ht, (strContains_iff _ _).mp hsub⟩
    · refine Or.inr ⟨ht, ?_⟩
      rcases List.any_eq_true.mp hsub with ⟨an, han, hc⟩
      rcases List.mem_map.mp han with ⟨a, ha, rfl⟩
      exact ⟨a, ha, (strContains_iff _ _).mp hc⟩
  · intro m2 hm2 hloc
    rw [match_locations] at hm2
    have char2 := mem_match_locations_go (pyLower w.description)
      (w.areas.map (fun a => pyLower a.name)) L m2 hm2
    rcases char.2.2 with ⟨ht, _, hcond⟩ | ⟨ht, _, _, _, hncond⟩ <;>
      rcases char2.2.2 with ⟨ht2, _, hcond2⟩ | ⟨ht2, _, _, _, hncond2⟩
    · rw [ht2, ht]
    · exact absurd ⟨by rw [hloc]; exact hcond.1, by rw [hloc]; exact hcond.2⟩ hncond2
    · exact absurd ⟨by rw [← hloc]; exact hcond2.1, by rw [← hloc]; exact hcond2.2⟩ hncond
    · rw [ht2, ht]

/-! ## C9 — empty names and disabled locations never match -/

/-- C9: every produced match comes from an enabled location; a location
with empty `subdistrict_name` never yields a kecamatan match and one with
empty `district_name` never yields a kabupaten match (the empty string is
not a universal substring). -/
theorem match_locations_no_empty_or_disabled (w : WarningInfo) (L : List Location)
    (m : MatchResult) (hm : m ∈ match_locations w L) :
    m.location.enabled = true
    ∧ (m.location.subdistrict_name = "" → m.match_type ≠ "kecamatan")
    ∧ (m.location.district_name = "" → m.match_type ≠ "kabupaten") := by
  rw [match_locations] at hm
  have char := mem_match_locations_go (pyLower w.description)
    (w.areas.map (fun a => pyLower a.name)) L m hm
  refine ⟨char.2.1, ?_, ?_⟩
  · intro hempty ht
    rcases char.2.2 with ⟨_, _, hne, _⟩ | ⟨ht2, _⟩
    · exact hne (by rw [hempty]; rfl)
    · rw [ht] at ht2; exact absurd ht2 (by decide)
  · intro hempty ht
    rcases char.2.2 with ⟨ht2, _⟩ | ⟨_, _, hne, _⟩
    · rw [ht] at ht2; exact absurd ht2 (by decide)
    · exact hne (by rw [hempty]; rfl)

/-! ## Quiet-hours characterization -/

/-- When both window bounds parse, `_is_quiet_hours` is true exactly when
quiet hours are enabled, the Severe/Extreme override does not apply, and
the local hour lies in the (possibly midnight-wrapping) window. -/
theorem is_quiet_hours_iff (cfg : List (String × String)) (severity : String)
    (utcHour : Nat) (sh eh : Int)
    (hs : parsePyInt (splitHead (get_config_value cfg "quiet_hours_start" "22:00") ':') = some sh)
    (he : parsePyInt (splitHead (get_config_value cfg "quiet_hours_end" "06:00") ':') = some eh) :
    is_quiet_hours cfg severity utcHour = true ↔
      (get_config_value cfg "quiet_hours_enabled" "false" = "true"
        ∧ ¬(get_config_value cfg "quiet_hours_override_severe" "true" = "true"
            ∧ (severity = "Severe" ∨ severity = "Extreme"))
        ∧ (if sh > eh then
            (((utcHour + 7) % 24 : Nat) : Int) ≥ sh ∨ (((utcHour + 7) % 24 : Nat) : Int) < eh
          else
            sh ≤ (((utcHour + 7) % 24 : Nat) : Int) ∧ (((utcHour + 7) % 24 : Nat) : Int) < eh)) := by
  simp only [is_quiet_hours]
  by_cases h1 : get_config_value cfg "quiet_hours_enabled" "false" = "true"
  case neg =>
    rw [if_pos h1]
    simp [h1]
  case pos =>
    rw [if_neg (fun hc => hc h1)]
    by_cases h2 : get_config_value cfg "quiet_hours_override_severe" "true" = "true"
        ∧ (severity = "Severe" ∨ severity = "Extreme")
    · rw [if_pos h2]
      simp only [Bool.false_eq_true, false_iff]
      intro hc
      exact hc.2.1 h2
    · rw [if_neg h2]
      rw [hs, he]
      by_cases h3 : sh > eh
      · simp [h3, h1, h2]
      · simp [h3, h1, h2]

/-! ## C4 — the quiet-hours filter in `dispatcher.send` -/

/-- C4: provided the configured window bounds parse as integers,
`dispatcher.send` appends a delivery row with status
`skipped_quiet_hours` and returns false exactly when
`quiet_hours_enabled` is `"true"`, the Severe/Extreme override does not
apply, and the local hour (UTC hour + 7 mod 24) lies in the half-open
window, interpreted as `hour ≥ start ∨ hour < end` when
`start > end`. -/
theorem dispatcher_send_quiet_hours_iff (cfg : List (String × String)) (utcHour : Nat)
    (behavior : String → SenderOutcome) (alert_id : Int) (warning : WarningInfo)
    (channel : Channel) (log : List Delivery) (sh eh : Int)
    (hs : parsePyInt (splitHead (get_config_value cfg "quiet_hours_start" "22:00") ':') = some sh)
    (he : parsePyInt (splitHead (get_config_value cfg "quiet_hours_end" "06:00") ':') = some eh) :
    ((∃ d : Delivery,
        (dispatcher_send cfg utcHour behavior alert_id warning channel log).2 = log ++ [d]
        ∧ d.status = "skipped_quiet_hours")
      ∧ (dispatcher_send cfg utcHour behavior alert_id warning channel log).1 = false) ↔
      (get_config_value cfg "quiet_hours_enabled" "false" = "true"
        ∧ ¬(get_config_value cfg "quiet_hours_override_severe" "true" = "true"
            ∧ (warning.severity = "Severe" ∨ warning.severity = "Extreme"))
        ∧ (if sh > eh then
            (((utcHour + 7) % 24 : Nat) : Int) ≥ sh ∨ (((utcHour + 7) % 24 : Nat) : Int) < eh
          else
            sh ≤ (((utcHour + 7) % 24 : Nat) : Int) ∧ (((utcHour + 7) % 24 : Nat) : Int) < eh)) := by
  rw [← is_quiet_hours_iff cfg warning.severity utcHour sh eh hs he]
  cases hq : is_quiet_hours cfg warning.severity utcHour with
  | true =>
    simp only [dispatcher_send, hq, if_true, log_delivery]
    simp [List.append_right_inj]
  | false =>
    simp only [dispatcher_send, hq, Bool.false_eq_true, if_false, log_delivery]
    rcases hres : senderAttempt behavior channel.channel_type with ⟨b, e⟩
    cases b <;> simp [List.append_right_inj]

/-! ## C10 — malformed quiet-hours config disables the filter -/

/-- C10: when quiet hours are enabled but the hour field of
`quiet_hours_start` or `quiet_hours_end` does not parse as an integer,
`_is_quiet_hours` returns false and the notification is dispatched
normally: the logged delivery row has status `sent` or `failed`, never
`skipped_quiet_hours`. -/
theorem quiet_hours_malformed_config_dispatches (cfg : List (String × String))
    (utcHour : Nat) (behavior : String → SenderOutcome) (alert_id : Int)
    (warning : WarningInfo) (channel : Channel) (log : List Delivery)
    (hen : get_config_value cfg "quiet_hours_enabled" "false" = "true")
    (hbad : parsePyInt (splitHead (get_config_value cfg "quiet_hours_start" "22:00") ':') = none
      ∨ parsePyInt (splitHead (get_config_value cfg "quiet_hours_end" "06:00") ':') = none) :
    is_quiet_hours cfg warning.severity utcHour = false
    ∧ ∃ d : Delivery,
        (dispatcher_send cfg utcHour behavior alert_id warning channel log).2 = log ++ [d]
        ∧ (d.status = "sent" ∨ d.status = "failed") := by
  have hq : is_quiet_hours cfg warning.severity utcHour = false := by
    simp only [is_quiet_hours]
    split_ifs
    · rfl
    · rfl
    · rcases hbad with hb | hb
      · cases hoth : parsePyInt (splitHead (get_config_value cfg "quiet_hours_end" "06:00") ':') <;>
          simp [hb, hoth]
      · cases hoth : parsePyInt (splitHead (get_config_value cfg "quiet_hours_start" "22:00") ':') <;>
          simp [hb, hoth]
  refine ⟨hq, ?_⟩
  simp only [dispatcher_send, hq, Bool.false_eq_true, if_false, log_delivery]
  refine ⟨_, rfl, ?_⟩
  split_ifs <;> simp

/-! ## Expiry sweeps: helper lemmas -/

/-- Running the per-row status UPDATEs over any list of selected rows is
the same as one pass over the table setting the status of every row whose
id was selected. -/
theorem foldl_updateAlertStatusById (st : String) :
    ∀ (rows d0 : List Alert),
      rows.foldl (fun d a => updateAlertStatusById d a.id st) d0
        = d0.map (fun a =>
            if a.id ∈ rows.map (fun r => r.id) then { a with status := st } else a) := by
  intro rows
  induction rows with
  | nil =>
    intro d0
    simp
  | cons r rest ih =>
    intro d0
    rw [List.foldl_cons, ih, updateAlertStatusById, List.map_map]
    refine List.map_congr_left (fun a _ => ?_)
    by_cases ha : a.id = r.id
    · simp [Function.comp, ha]
    · simp [Function.comp, ha]

/-- In a table whose ids are pairwise distinct, a row's id appears among
the ids of the filtered table exactly when the row satisfies the filter. -/
theorem mem_filter_map_id {α : Type} (p : α → Bool) (f : α → Int) (db : List α)
    (h : (db.map f).Nodup) (a : α) (ha : a ∈ db) :
    f a ∈ (db.filter p).map f ↔ p a = true := by
  constructor
  · intro hmem
    rcases List.mem_map.mp hmem with ⟨b, hb, hfb⟩
    have hbdb := List.mem_of_mem_filter hb
    have : b = a := List.inj_on_of_nodup_map h hbdb ha hfb
    exact this ▸ List.of_mem_filter hb
  · intro hp
    exact List.mem_map_of_mem f (List.mem_filter_of_mem ha hp)

/-! ## C6 — `mark_expired_alerts` transitions exactly the due rows, idempotently -/

/-- C6: over a table with distinct row ids, `mark_expired_alerts` returns
exactly the pre-transition snapshots of the rows with `status = "active"`,
non-empty `expires`, and `expires < now`; the new table is the old one
with precisely those rows' status set to `expired`; and an immediate
second call returns the empty list leaving the table unchanged. -/
theorem mark_expired_alerts_spec (now : String) (db : List Alert)
    (h : (db.map (fun a => a.id)).Nodup) :
    (mark_expired_alerts now db).1 = db.filter (alertExpiredPred now)
    ∧ (mark_expired_alerts now db).2
        = db.map (fun a =>
            if alertExpiredPred now a then { a with status := "expired" } else a)
    ∧ mark_expired_alerts now (mark_expired_alerts now db).2
        = ([], (mark_expired_alerts now db).2) := by
  have hsnd : (mark_expired_alerts now db).2
      = db.map (fun a =>
          if alertExpiredPred now a then { a with status := "expired" } else a) := by
    show (db.filter (alertExpiredPred now)).foldl
        (fun d a => updateAlertStatusById d a.id "expired") db = _
    rw [foldl_updateAlertStatusById]
    refine List.map_congr_left (fun a ha => ?_)
    have hiff := mem_filter_map_id (alertExpiredPred now) (fun r => r.id) db h a ha
    by_cases hp : alertExpiredPred now a = true
    · rw [if_pos (hiff.mpr hp), if_pos hp]
    · rw [if_neg (fun hc => hp (hiff.mp hc)), if_neg hp]
  refine ⟨rfl, hsnd, ?_⟩
  have hall : ∀ a ∈ db, ¬((alertExpiredPred now ∘ (fun a =>
      if alertExpiredPred now a = true then { a with status := "expired" } else a)) a = true) := by
    intro a _
    by_cases hp : alertExpiredPred now a = true
    · simp only [Function.comp, if_pos hp]
      simp [alertExpiredPred]
    · simp only [Function.comp, if_neg hp]
      exact fun hc => hp hc
  have hnone : (mark_expired_alerts now db).2.filter (alertExpiredPred now) = [] := by
    rw [hsnd, List.filter_map, List.filter_eq_nil_iff.mpr hall, List.map_nil]
  show ((mark_expired_alerts now db).2.filter (alertExpiredPred now),
      ((mark_expired_alerts now db).2.filter (alertExpiredPred now)).foldl
        (fun d a => updateAlertStatusById d a.id "expired")
        (mark_expired_alerts now db).2) = _
  rw [hnone]
  rfl

/-! ## C7 — `expire_trials` notifies each trial exactly once -/

/-- C7: over a table with distinct trial ids, `expire_trials` returns
exactly the rows with `expires_at ≤ now` and `expired_notified = 0`, sets
`expired_notified = 1` on precisely those rows, and an immediate second
call returns the empty list leaving the table unchanged — so each trial is
returned for notification exactly once. -/
theorem expire_trials_spec (now : String) (db : List Trial)
    (h : (db.map (fun t => t.id)).Nodup) :
    (expire_trials now db).1 = db.filter (trialExpiredPred now)
    ∧ (expire_trials now db).2
        = db.map (fun t =>
            if trialExpiredPred now t then { t with expired_notified := 1 } else t)
    ∧ expire_trials now (expire_trials now db).2 = ([], (expire_trials now db).2) := by
  have hfst : (expire_trials now db).1 = db.filter (trialExpiredPred now) := by
    rw [expire_trials]
    split <;> rfl
  have hsnd : (expire_trials now db).2
      = db.map (fun t =>
          if trialExpiredPred now t then { t with expired_notified := 1 } else t) := by
    rw [expire_trials]
    split
    · next hemp =>
      rw [List.isEmpty_iff] at hemp
      have hall := List.filter_eq_nil_iff.mp hemp
      show db = _
      have hid : ∀ t ∈ db,
          (if trialExpiredPred now t = true then { t with expired_notified := 1 } else t) = t := by
        intro t ht
        rw [if_neg (hall t ht)]
      exact ((List.map_congr_left hid).trans (List.map_id' db)).symm
    · show setTrialNotifiedByIds db ((db.filter (trialExpiredPred now)).map (fun t => t.id)) = _
      rw [setTrialNotifiedByIds]
      refine List.map_congr_left (fun t ht => ?_)
      have hiff := mem_filter_map_id (trialExpiredPred now) (fun r => r.id) db h t ht
      by_cases hp : trialExpiredPred now t = true
      · rw [if_pos (hiff.mpr hp), if_pos hp]
      · rw [if_neg (fun hc => hp (hiff.mp hc)), if_neg hp]
  refine ⟨hfst, hsnd, ?_⟩
  have hall2 : ∀ t ∈ db, ¬((trialExpiredPred now ∘ (fun t =>
      if trialExpiredPred now t = true then { t with expired_notified := 1 } else t)) t = true) := by
    intro t _
    by_cases hp : trialExpiredPred now t = true
    · simp only [Function.comp, if_pos hp]
      simp [trialExpiredPred]
    · simp only [Function.comp, if_neg hp]
      exact fun hc => hp hc
  have hnone : (expire_trials now db).2.filter (trialExpiredPred now) = [] := by
    rw [hsnd, List.filter_map, List.filter_eq_nil_iff.mpr hall2, List.map_nil]
  rw [expire_trials, hnone]
  simp

/-! ## C1 — the poll cycle preserves the dedup invariant -/

theorem processMatch_preserves_dedup (code : String) (w : WarningInfo) (m : MatchResult)
    (db : List Alert) (h : dedupInvariant db) :
    dedupInvariant (processMatch code w db m) := by
  unfold processMatch
  by_cases hdup : is_duplicate code m.location.id db = true
  · rw [if_pos hdup]
    exact h
  · rw [if_neg hdup]
    have hnex : ¬∃ a, a ∈ db ∧
        decide (a.bmkg_alert_code = code ∧ a.matched_location_id = some m.location.id) = true := by
      intro hex
      exact hdup (by rw [is_duplicate]; exact List.find?_isSome.mpr hex)
    have hany : db.any (fun a =>
        decide (a.bmkg_alert_code = code ∧ a.matched_location_id = some m.location.id)) = false :=
      Bool.eq_false_iff.mpr (fun hc => hnex (List.any_eq_true.mp hc))
    simp only [store_alert, hany, Bool.false_eq_true, if_false]
    intro c l
    rw [pairCount, List.filter_append]
    by_cases hcl : c = code ∧ l = m.location.id
    · obtain ⟨h1, h2⟩ := hcl
      have hfilter : db.filter (fun a =>
          decide (a.bmkg_alert_code = c ∧ a.matched_location_id = some l)) = [] :=
        List.filter_eq_nil_iff.mpr (fun a ha hpa =>
          hnex ⟨a, ha, by rw [h1, h2] at hpa; exact hpa⟩)
      rw [hfilter, List.nil_append]
      exact le_trans (List.length_filter_le _ _) (by simp)
    · have hrow : ¬((fun a : Alert =>
          decide (a.bmkg_alert_code = c ∧ a.matched_location_id = some l))
            (mkAlertRow w m code (nextAlertId db)) = true) := by
        simp only [mkAlertRow, decide_eq_true_eq]
        rintro ⟨h1, h2⟩
        exact hcl ⟨h1.symm, (Option.some_inj.mp h2).symm⟩
      rw [List.filter_cons, if_neg hrow, List.filter_nil, List.append_nil]
      exact h c l

theorem foldl_processMatch_preserves_dedup (code : String) (w : WarningInfo) :
    ∀ (ms : List MatchResult) (db : List Alert), dedupInvariant db →
      dedupInvariant (ms.foldl (processMatch code w) db) := by
  intro ms
  induction ms with
  | nil => intro db h; exact h
  | cons m rest ih =>
    intro db h
    exact ih _ (processMatch_preserves_dedup code w m db h)

theorem processWarning_preserves_dedup (code : String) (locations : List Location)
    (db : List Alert) (w : WarningInfo) (h : dedupInvariant db) :
    dedupInvariant (processWarning code locations db w) := by
  unfold processWarning
  split
  · exact h
  · exact foldl_processMatch_preserves_dedup code w _ db h

theorem processItem_preserves_dedup (locations : List Location)
    (item : String × List WarningInfo) :
    ∀ db : List Alert, dedupInvariant db →
      dedupInvariant (processItem locations db item) := by
  rcases item with ⟨code, ws⟩
  show ∀ db, dedupInvariant db → dedupInvariant (ws.foldl (processWarning code locations) db)
  induction ws with
  | nil => intro db h; exact h
  | cons w rest ih =>
    intro db h
    exact ih _ (processWarning_preserves_dedup code locations db w h)

theorem foldl_processItem_preserves_dedup (locations : List Location) :
    ∀ (items : List (String × List WarningInfo)) (db : List Alert), dedupInvariant db →
      dedupInvariant (items.foldl (processItem locations) db) := by
  intro items
  induction items with
  | nil => intro db h; exact h
  | cons item rest ih =>
    intro db h
    exact ih _ (processItem_preserves_dedup locations item db h)

/-- The expiry sweep only rewrites statuses, so every pair count is
unchanged. -/
theorem pairCount_mark_expired (now : String) (c : String) (l : Int) (db : List Alert) :
    pairCount c l (mark_expired_alerts now db).2 = pairCount c l db := by
  show pairCount c l ((db.filter (alertExpiredPred now)).foldl
      (fun d a => updateAlertStatusById d a.id "expired") db) = _
  rw [foldl_updateAlertStatusById]
  unfold pairCount
  rw [List.filter_map, List.length_map]
  congr 1
  refine List.filter_congr (fun a _ => ?_)
  by_cases hp : a.id ∈ (db.filter (alertExpiredPred now)).map (fun r => r.id)
  · simp only [Function.comp, if_pos hp]
  · simp only [Function.comp, if_neg hp]

/-- C1: the poll cycle's dedup protocol works — if the `alerts` table has
at most one row per `(bmkg_alert_code, matched_location_id)` pair, it
still does after a full poll cycle (dedup check before every insert, then
the expiry sweep), so every table reachable by running poll cycles keeps
the invariant. -/
theorem runPollCycle_preserves_dedup (items : List (String × List WarningInfo))
    (locations : List Location) (now : String) (db : List Alert)
    (h : dedupInvariant db) : dedupInvariant (runPollCycle items locations now db) := by
  unfold runPollCycle
  split_ifs
  · exact h
  · exact h
  · intro c l
    rw [pairCount_mark_expired]
    exact foldl_processItem_preserves_dedup locations items db h c l

/-! ## C2 — `store_alert` on a duplicate pair -/

/-- C2: `store_alert` fails with `DuplicateKey` whenever an `alerts` row
with the same `(bmkg_alert_code, matched_location_id)` pair already
exists, and on that failure the table is unchanged (no row inserted). -/
theorem store_alert_duplicate_fails (warning : WarningInfo) (m : MatchResult)
    (code : String) (db : List Alert)
    (h : ∃ a ∈ db, a.bmkg_alert_code = code ∧ a.matched_location_id = some m.location.id) :
    store_alert warning m code db = (Except.error "DuplicateKey", db) := by
  obtain ⟨a, ha, hc⟩ := h
  have hex : ∃ x ∈ db, x.bmkg_alert_code = code ∧ x.matched_location_id = some m.location.id :=
    ⟨a, ha, hc⟩
  simp [store_alert, hex]

/-! ## Witnesses -/

/-- C1 witness: the dedup invariant holds for the empty table and is kept
by a concrete cycle that inserts an alert. -/
theorem runPollCycle_preserves_dedup_witness :
    dedupInvariant ([] : List Alert)
    ∧ dedupInvariant (runPollCycle [("CBT1", [sampleWarning])] [sampleLocation]
        "1999-01-01T00:00:00+00:00" []) :=
  ⟨fun c l => by simp [pairCount],
    runPollCycle_preserves_dedup [("CBT1", [sampleWarning])] [sampleLocation]
      "1999-01-01T00:00:00+00:00" [] (fun c l => by simp [pairCount])⟩

/-- C2 witness: inserting the S1 match over a table already holding its
pair raises `DuplicateKey` and leaves the table unchanged. -/
theorem store_alert_duplicate_fails_witness :
    (∃ a ∈ [sampleAlert], a.bmkg_alert_code = "CBT1"
        ∧ a.matched_location_id = some sampleMatch.location.id)
    ∧ store_alert sampleWarning sampleMatch "CBT1" [sampleAlert]
        = (Except.error "DuplicateKey", [sampleAlert]) :=
  ⟨⟨sampleAlert, by simp, rfl, rfl⟩,
    store_alert_duplicate_fails sampleWarning sampleMatch "CBT1" [sampleAlert]
      ⟨sampleAlert, by simp, rfl, rfl⟩⟩

/-- C3 witness: the S1 kecamatan match is produced and characterized. -/
theorem match_locations_sound_witness :
    sampleMatch ∈ match_locations sampleWarning [sampleLocation]
    ∧ (((sampleMatch.match_type = "kecamatan"
          ∧ IsSubstring (pyLower sampleMatch.location.subdistrict_name)
              (pyLower sampleWarning.description))
        ∨ (sampleMatch.match_type = "kabupaten"
          ∧ ∃ a ∈ sampleWarning.areas,
              IsSubstring (pyLower sampleMatch.location.district_name) (pyLower a.name)))
      ∧ ∀ m2 ∈ match_locations sampleWarning [sampleLocation],
          m2.location = sampleMatch.location → m2.match_type = sampleMatch.match_type) :=
  ⟨by decide,
    match_locations_sound sampleWarning [sampleLocation] sampleMatch (by decide)⟩

/-- C4 witness: with the S6 configuration, window 22–06, local hour 23
(UTC 16) and a Moderate warning, the dispatcher skips with
`skipped_quiet_hours`. -/
theorem dispatcher_send_quiet_hours_iff_witness :
    (parsePyInt (splitHead (get_config_value sampleQuietCfg "quiet_hours_start" "22:00") ':')
        = some 22
      ∧ parsePyInt (splitHead (get_config_value sampleQuietCfg "quiet_hours_end" "06:00") ':')
        = some 6)
    ∧ (((∃ d : Delivery,
          (dispatcher_send sampleQuietCfg 16 (fun _ => SenderOutcome.ok true) 9
            sampleWarning sampleChannel []).2 = [] ++ [d]
          ∧ d.status = "skipped_quiet_hours")
        ∧ (dispatcher_send sampleQuietCfg 16 (fun _ => SenderOutcome.ok true) 9
            sampleWarning sampleChannel []).1 = false) ↔
        (get_config_value sampleQuietCfg "quiet_hours_enabled" "false" = "true"
          ∧ ¬(get_config_value sampleQuietCfg "quiet_hours_override_severe" "true" = "true"
              ∧ (sampleWarning.severity = "Severe" ∨ sampleWarning.severity = "Extreme"))
          ∧ (if (22 : Int) > (6 : Int) then
              (((16 + 7) % 24 : Nat) : Int) ≥ 22 ∨ (((16 + 7) % 24 : Nat) : Int) < 6
            else
              (22 : Int) ≤ (((16 + 7) % 24 : Nat) : Int)
                ∧ (((16 + 7) % 24 : Nat) : Int) < 6))) :=
  ⟨⟨by decide, by decide⟩,
    dispatcher_send_quiet_hours_iff sampleQuietCfg 16 (fun _ => SenderOutcome.ok true) 9
      sampleWarning sampleChannel [] 22 6 (by decide) (by decide)⟩

/-- C6 witness: the S4 sweep over a one-row table with distinct ids. -/
theorem mark_expired_alerts_spec_witness :
    (([sampleAlert].map (fun a => a.id)).Nodup)
    ∧ ((mark_expired_alerts "2026-01-01T00:00:00+00:00" [sampleAlert]).1
          = [sampleAlert].filter (alertExpiredPred "2026-01-01T00:00:00+00:00")
      ∧ (mark_expired_alerts "2026-01-01T00:00:00+00:00" [sampleAlert]).2
          = [sampleAlert].map (fun a =>
              if alertExpiredPred "2026-01-01T00:00:00+00:00" a then
                { a with status := "expired" } else a)
      ∧ mark_expired_alerts "2026-01-01T00:00:00+00:00"
            (mark_expired_alerts "2026-01-01T00:00:00+00:00" [sampleAlert]).2
          = ([], (mark_expired_alerts "2026-01-01T00:00:00+00:00" [sampleAlert]).2)) :=
  ⟨by decide,
    mark_expired_alerts_spec "2026-01-01T00:00:00+00:00" [sampleAlert] (by decide)⟩

/-- C7 witness: expiring a one-row trial table with distinct ids. -/
theorem expire_trials_spec_witness :
    (([sampleTrial].map (fun t => t.id)).Nodup)
    ∧ ((expire_trials "2026-01-01 00:00:00" [sampleTrial]).1
          = [sampleTrial].filter (trialExpiredPred "2026-01-01 00:00:00")
      ∧ (expire_trials "2026-01-01 00:00:00" [sampleTrial]).2
          = [sampleTrial].map (fun t =>
              if trialExpiredPred "2026-01-01 00:00:00" t then
                { t with expired_notified := 1 } else t)
      ∧ expire_trials "2026-01-01 00:00:00"
            (expire_trials "2026-01-01 00:00:00" [sampleTrial]).2
          = ([], (expire_trials "2026-01-01 00:00:00" [sampleTrial]).2)) :=
  ⟨by decide,
    expire_trials_spec "2026-01-01 00:00:00" [sampleTrial] (by decide)⟩

/-- C9 witness: the S1 match comes from an enabled location with non-empty
names. -/
theorem match_locations_no_empty_or_disabled_witness :
    sampleMatch ∈ match_locations sampleWarning [sampleLocation]
    ∧ (sampleMatch.location.enabled = true
      ∧ (sampleMatch.location.subdistrict_name = "" → sampleMatch.match_type ≠ "kecamatan")
      ∧ (sampleMatch.location.district_name = "" → sampleMatch.match_type ≠ "kabupaten")) :=
  ⟨by decide,
    match_locations_no_empty_or_disabled sampleWarning [sampleLocation] sampleMatch (by decide)⟩

/-- C10 witness: enabled quiet hours with an unparsable start hour do not
suppress the delivery. -/
theorem quiet_hours_malformed_config_dispatches_witness :
    (get_config_value sampleBadCfg "quiet_hours_enabled" "false" = "true"
      ∧ parsePyInt (splitHead (get_config_value sampleBadCfg "quiet_hours_start" "22:00") ':')
        = none)
    ∧ (is_quiet_hours sampleBadCfg sampleWarning.severity 16 = false
      ∧ ∃ d : Delivery,
          (dispatcher_send sampleBadCfg 16 (fun _ => SenderOutcome.ok true) 9
            sampleWarning sampleChannel []).2 = [] ++ [d]
          ∧ (d.status = "sent" ∨ d.status = "failed")) :=
  ⟨⟨by decide, by decide⟩,
    quiet_hours_malformed_config_dispatches sampleBadCfg 16 (fun _ => SenderOutcome.ok true) 9
      sampleWarning sampleChannel [] (by decide) (Or.inl (by decide))⟩

end BmkgAlert
